import Mathlib

/-!
Verification of the Rag repository's retrieval pipeline against its
natural-language specification.

The TypeScript source is shallowly embedded: JavaScript numbers are
modelled as exact rationals (`ℚ`), `topK` parameters as `Int`
(JavaScript `Array.from <:(length := n):>` clamps negative lengths to 0,
modelled with `Int.toNat`), strings as Lean `String`
(a wrapper over `List Char`), and the `Promise` resolve/reject channel of
an `async` function as `Except`.  Every definition is translated from
the source files; definitions that follow the specification's words
instead (for refinement comparisons) are clearly marked.
-/

namespace Rag

/-! ## QueryEngine.tsx -/

/-- The three retrieval strategies of QueryEngine.tsx
(`type RetrievalStrategy = "semantic" | "keyword" | "hybrid"`). -/
inductive RetrievalStrategy where
  | semantic
  | keyword
  | hybrid
deriving DecidableEq, Repr

/-- The string each strategy literal denotes, used when the mock result
content interpolates `${strategy}`. -/
def RetrievalStrategy.asString : RetrievalStrategy → String
  | .semantic => "semantic"
  | .keyword => "keyword"
  | .hybrid => "hybrid"

/-- The `filters` state of QueryEngine.tsx: `{ bookname: "", chapter: "" }`,
a record of two strings. -/
structure QueryFilters where
  bookname : String
  chapter : String
deriving DecidableEq, Repr

/-- Metadata attached to each mock retrieval result
(`bookname`, `chapter`, `question_number`). -/
structure ResultMetadata where
  bookname : String
  chapter : String
  question_number : Nat
deriving DecidableEq, Repr

/-- `type RetrievalResult = { id, content, score, metadata }` from
QueryEngine.tsx.  Scores are JavaScript numbers, modelled as `ℚ`. -/
structure RetrievalResult where
  id : String
  content : String
  score : ℚ
  metadata : ResultMetadata
deriving DecidableEq, Repr

/-- The error taxonomy named by the specification (§7).  The source code
of QueryEngine.tsx never produces any of these: its retrieval promise
always resolves. -/
inductive RetrievalError where
  | EmptyQuery
  | InvalidTopK
  | DimensionMismatch
  | IndexUnavailable
  | EmbeddingUnavailable
  | Timeout
deriving DecidableEq, Repr

/-- The i-th mock result generated inside `retrieveRelevantContent`
(QueryEngine.tsx): id `result-${i}`, content interpolating the processed
query and the strategy, score `1 - i * 0.15` (the literal `0.15` is the
rational `15/100`), and metadata defaulting empty filter strings via
JavaScript `||`. -/
def mockResult (processedQuery : String) (strategy : RetrievalStrategy)
    (filters : QueryFilters) (i : Nat) : RetrievalResult :=
  { id := "result-" ++ toString i
    content := "This is a sample result for query \"" ++ processedQuery ++ "\" using "
      ++ strategy.asString ++ " strategy. "
      ++ (if i = 0 then "This is the most relevant result."
          else "This is result number " ++ toString (i + 1) ++ ".")
    score := 1 - (i : ℚ) * (15 / 100)
    metadata :=
      { bookname := if filters.bookname = "" then "Sample Medical Book" else filters.bookname
        chapter := if filters.chapter = "" then "Chapter " ++ toString (i + 1) else filters.chapter
        question_number := i + 1 } }

/-- The mock result list built by `Array.from` with length `topK` inside
`retrieveRelevantContent`.  JavaScript's `ToLength` clamps a negative
length to `0`, hence `Int.toNat`. -/
def mockResults (processedQuery : String) (strategy : RetrievalStrategy)
    (filters : QueryFilters) (topK : Int) : List RetrievalResult :=
  (List.range topK.toNat).map (mockResult processedQuery strategy filters)

/-- `retrieveRelevantContent` of QueryEngine.tsx.  The source function has
no error path at all: it ignores the strategy for control flow, performs no
`topK` validation, and always resolves with the mock results; so the
embedding always returns `Except.ok`.  (The artificial delay and the
`setIsSearching` UI effects carry no result semantics and are dropped.) -/
def retrieveRelevantContent (processedQuery : String) (strategy : RetrievalStrategy)
    (filters : QueryFilters) (topK : Int) : Except RetrievalError (List RetrievalResult) :=
  Except.ok (mockResults processedQuery strategy filters topK)

end Rag

namespace Rag

/-- C1 counterexample: at `top_k = 0` (query "test", strategy semantic)
`retrieveRelevantContent` resolves with the empty result sequence; it does
not return the `InvalidTopK` error the claim demands. -/
theorem retrieve_topK_zero_not_invalidTopK :
    retrieveRelevantContent "test" RetrievalStrategy.semantic ⟨"", ""⟩ 0 = Except.ok [] ∧
    retrieveRelevantContent "test" RetrievalStrategy.semantic ⟨"", ""⟩ 0 ≠
      Except.error RetrievalError.InvalidTopK := by
  refine ⟨rfl, ?_⟩
  show Except.ok [] ≠ Except.error RetrievalError.InvalidTopK
  intro h
  exact Except.noConfusion h

/-- C1 amended: for every strategy and query, calling retrieval with
`top_k ≤ 0` returns the empty result sequence (a successful resolution),
never an `InvalidTopK` error — the mock code performs no validation. -/
theorem retrieve_nonpositive_topK (q : String) (s : RetrievalStrategy)
    (f : QueryFilters) (k : Int) (hk : k ≤ 0) :
    retrieveRelevantContent q s f k = Except.ok [] := by
  unfold retrieveRelevantContent mockResults
  rw [Int.toNat_of_nonpos hk]
  rfl

/-- C1 witness: the amended theorem evaluated at `top_k = 0`. -/
theorem retrieve_nonpositive_topK_witness :
    retrieveRelevantContent "cardiac symptoms" RetrievalStrategy.keyword ⟨"", ""⟩ 0 =
      Except.ok [] :=
  retrieve_nonpositive_topK "cardiac symptoms" RetrievalStrategy.keyword ⟨"", ""⟩ 0 (by decide)

/-! ## VectorProcessor.tsx -/

/-- The record returned by `findSimilar` in VectorProcessor.tsx:
`{ id, score, content }`. -/
structure SimilarItem where
  id : String
  score : ℚ
  content : String
deriving DecidableEq, Repr

/-- The i-th mock item generated inside `findSimilar`
(VectorProcessor.tsx): id `mock-id-${i}`, score `1 - i * 0.1`. -/
def similarItem (i : Nat) : SimilarItem :=
  { id := "mock-id-" ++ toString i
    score := 1 - (i : ℚ) * (1 / 10)
    content := "This is a mock similar item " ++ toString (i + 1) }

/-- `findSimilar` of VectorProcessor.tsx: mock items built by
`Array.from` with length `topK` (negative lengths clamp to 0). -/
def findSimilar (text : String) (topK : Int) : List SimilarItem :=
  (List.range topK.toNat).map similarItem

/-- `embedText` of VectorProcessor.tsx: it ignores its text argument and
returns `Array.from` of length 1536 where each element is a fresh
`Math.random()` value; the random generator is modelled as an explicit
stream of rational values, one per position. -/
def embedText (randomValues : Nat → ℚ) (text : String) : List ℚ :=
  (List.range 1536).map randomValues

/-- C8: for every random stream and every input text, `embedText` returns
a vector of exactly the model's fixed dimension 1536, never any other
length. -/
theorem embedText_dimension (randomValues : Nat → ℚ) (text : String) :
    (embedText randomValues text).length = 1536 := by
  simp [embedText]

/-- C3 counterexample: the query has no vector (the code never produces
one), yet semantic-strategy retrieval does not fall back to the keyword
path: at query "test" with `top_k = 1` its output differs from the
keyword-strategy output, because the mock content interpolates the
strategy name.  No degraded flag exists anywhere in the output type. -/
theorem semantic_not_keyword_fallback :
    mockResults "test" RetrievalStrategy.semantic ⟨"", ""⟩ 1 ≠
      mockResults "test" RetrievalStrategy.keyword ⟨"", ""⟩ 1 := by
  decide

/-- C3 amended: semantic retrieval without a query vector still succeeds
(the promise always resolves, so no embedding failure is ever surfaced as
an error), and its ids and scores coincide with the keyword strategy's;
but the two outputs are not equal (content text differs) and the result
records carry no degraded flag — `RetrievalResult` consists only of `id`,
`content`, `score` and `metadata`. -/
theorem semantic_succeeds_same_scores (q : String) (f : QueryFilters) (k : Int) :
    (∃ rs, retrieveRelevantContent q RetrievalStrategy.semantic f k = Except.ok rs) ∧
    (mockResults q RetrievalStrategy.semantic f k).map RetrievalResult.score =
      (mockResults q RetrievalStrategy.keyword f k).map RetrievalResult.score ∧
    (mockResults q RetrievalStrategy.semantic f k).map RetrievalResult.id =
      (mockResults q RetrievalStrategy.keyword f k).map RetrievalResult.id := by
  refine ⟨⟨_, rfl⟩, ?_, ?_⟩ <;> simp [mockResults, mockResult]

/-- C4 counterexample: at `top_k = 8` the eighth retrieval score is
`1 - 7 * 0.15 = -1/20`, which lies outside `[0, 1]`. -/
theorem retrieval_score_below_zero :
    ((mockResults "test" RetrievalStrategy.semantic ⟨"", ""⟩ 8).map
        RetrievalResult.score).get? 7 = some (-(1 / 20 : ℚ)) ∧
      (-(1 / 20 : ℚ)) < 0 := by
  constructor
  · rw [mockResults, List.map_map, List.get?_map,
      List.get?_range (by norm_num : 7 < (8 : Int).toNat)]
    show some ((mockResult "test" RetrievalStrategy.semantic ⟨"", ""⟩ 7).score) = _
    simp only [mockResult]
    norm_num
  · norm_num

/-- C4 amended: every similarity/retrieval score is at most 1, and all
scores lie in `[0, 1]` provided `top_k ≤ 7` for `retrieveRelevantContent`
(scores `1 - i * 0.15`) and `top_k ≤ 11` for `findSimilar` (scores
`1 - i * 0.1`); for larger `top_k` negative scores occur. -/
theorem scores_in_unit_interval (q : String) (s : RetrievalStrategy) (f : QueryFilters)
    (t : String) (k k' kneg kneg' : Int)
    (hk : k ≤ 7) (hk' : k' ≤ 11) (hkneg : 8 ≤ kneg) (hkneg' : 12 ≤ kneg') :
    (∀ j : Int, ∀ r ∈ mockResults q s f j, r.score ≤ 1) ∧
    (∀ j : Int, ∀ r ∈ findSimilar t j, r.score ≤ 1) ∧
    (∀ r ∈ mockResults q s f k, 0 ≤ r.score ∧ r.score ≤ 1) ∧
    (∀ r ∈ findSimilar t k', 0 ≤ r.score ∧ r.score ≤ 1) ∧
    (∃ r ∈ mockResults q s f kneg, r.score < 0) ∧
    (∃ r ∈ findSimilar t kneg', r.score < 0) := by
  refine ⟨?_, ?_, ?_, ?_, ?_, ?_⟩
  · intro j r hr
    rw [mockResults] at hr
    obtain ⟨i, hi, rfl⟩ := List.mem_map.1 hr
    have hi0 : (0 : ℚ) ≤ (i : ℚ) := Nat.cast_nonneg i
    simp only [mockResult]
    nlinarith
  · intro j r hr
    rw [findSimilar] at hr
    obtain ⟨i, hi, rfl⟩ := List.mem_map.1 hr
    have hi0 : (0 : ℚ) ≤ (i : ℚ) := Nat.cast_nonneg i
    simp only [similarItem]
    nlinarith
  · intro r hr
    rw [mockResults] at hr
    obtain ⟨i, hi, rfl⟩ := List.mem_map.1 hr
    rw [List.mem_range] at hi
    have hk7 : k.toNat ≤ 7 := Int.toNat_le_toNat hk
    have hi6 : (i : ℚ) ≤ 6 := by exact_mod_cast Nat.le_of_lt_succ (Nat.lt_of_lt_of_le hi hk7)
    have hi0 : (0 : ℚ) ≤ (i : ℚ) := Nat.cast_nonneg i
    simp only [mockResult]
    constructor <;> nlinarith
  · intro r hr
    rw [findSimilar] at hr
    obtain ⟨i, hi, rfl⟩ := List.mem_map.1 hr
    rw [List.mem_range] at hi
    have hk11 : k'.toNat ≤ 11 := Int.toNat_le_toNat hk'
    have hi10 : (i : ℚ) ≤ 10 := by exact_mod_cast Nat.le_of_lt_succ (Nat.lt_of_lt_of_le hi hk11)
    have hi0 : (0 : ℚ) ≤ (i : ℚ) := Nat.cast_nonneg i
    simp only [similarItem]
    constructor <;> nlinarith
  · have h8 : (8 : Nat) ≤ kneg.toNat := by
      have := Int.toNat_le_toNat hkneg
      simpa using this
    refine ⟨mockResult q s f 7, ?_, ?_⟩
    · rw [mockResults]
      exact List.mem_map.2 ⟨7, List.mem_range.2 (Nat.lt_of_lt_of_le (by norm_num) h8), rfl⟩
    · simp only [mockResult]
      norm_num
  · have h12 : (12 : Nat) ≤ kneg'.toNat := by
      have := Int.toNat_le_toNat hkneg'
      simpa using this
    refine ⟨similarItem 11, ?_, ?_⟩
    · rw [findSimilar]
      exact List.mem_map.2 ⟨11, List.mem_range.2 (Nat.lt_of_lt_of_le (by norm_num) h12), rfl⟩
    · simp only [similarItem]
      norm_num

/-- C4 witness: the amended theorem at the boundary values
`top_k = 7` and `top_k = 11` (scores within `[0, 1]`) and `top_k = 8` and
`top_k = 12` (a negative score occurs in each function's output). -/
theorem scores_in_unit_interval_witness :
    (∀ j : Int, ∀ r ∈ mockResults "cardiac arrest" RetrievalStrategy.hybrid ⟨"", ""⟩ j,
        r.score ≤ 1) ∧
    (∀ j : Int, ∀ r ∈ findSimilar "cardiac arrest" j, r.score ≤ 1) ∧
    (∀ r ∈ mockResults "cardiac arrest" RetrievalStrategy.hybrid ⟨"", ""⟩ 7,
        0 ≤ r.score ∧ r.score ≤ 1) ∧
    (∀ r ∈ findSimilar "cardiac arrest" 11, 0 ≤ r.score ∧ r.score ≤ 1) ∧
    (∃ r ∈ mockResults "cardiac arrest" RetrievalStrategy.hybrid ⟨"", ""⟩ 8, r.score < 0) ∧
    (∃ r ∈ findSimilar "cardiac arrest" 12, r.score < 0) :=
  scores_in_unit_interval "cardiac arrest" RetrievalStrategy.hybrid ⟨"", ""⟩
    "cardiac arrest" 7 11 8 12 (by decide) (by decide) (by decide) (by decide)

/-- The ordering the specification demands of ranked results: earlier
entries have strictly greater `combined_score`, with equal scores broken
by ascending `document_id`. -/
def rankedOrder (a b : RetrievalResult) : Prop :=
  b.score < a.score ∨ (b.score = a.score ∧ a.id < b.id)

/-- C6: for every query, strategy, filters and `k`, the retrieval result
sequence contains at most `k` items (exactly `k.toNat`, and `k.toNat = k`
whenever `k ≥ 0`) and is sorted in descending score order with the
deterministic id tie-break (ties in fact never occur: the mock scores
`1 - i * 0.15` are strictly decreasing). -/
theorem retrieve_ranked (q : String) (s : RetrievalStrategy) (f : QueryFilters) (k : Int) :
    (mockResults q s f k).length ≤ k.toNat ∧
    (mockResults q s f k).Pairwise rankedOrder := by
  constructor
  · simp [mockResults]
  · rw [mockResults]
    refine List.Pairwise.map _ ?_ (List.pairwise_lt_range k.toNat)
    intro i j hij
    left
    show (mockResult q s f j).score < (mockResult q s f i).score
    simp only [mockResult]
    have hij' : (i : ℚ) < (j : ℚ) := by exact_mod_cast hij
    nlinarith

/-- C7: two retrieval calls with identical arguments (processed query,
strategy, filters, top_k) return identical ordered result sequences: the
source function consults no hidden mutable state and no randomness, so it
is a pure function of its four arguments. -/
theorem retrieve_deterministic (p₁ p₂ : String) (s₁ s₂ : RetrievalStrategy)
    (f₁ f₂ : QueryFilters) (k₁ k₂ : Int)
    (hp : p₁ = p₂) (hs : s₁ = s₂) (hf : f₁ = f₂) (hk : k₁ = k₂) :
    retrieveRelevantContent p₁ s₁ f₁ k₁ = retrieveRelevantContent p₂ s₂ f₂ k₂ := by
  rw [hp, hs, hf, hk]

/-! ## Query processing (QueryEngine.tsx, `processQuery`) -/

/-- ASCII model of JavaScript `toLowerCase()`: lowercase every
character. -/
def jsToLower (s : String) : String :=
  String.mk (s.data.map Char.toLower)

/-- Model of JavaScript `trim()`: remove whitespace characters from both
ends of the string. -/
def jsTrim (s : String) : String :=
  String.mk (((s.data.dropWhile Char.isWhitespace).reverse.dropWhile Char.isWhitespace).reverse)

/-- Maximal runs of characters not satisfying `p`, accumulating the
current run in reverse in `acc`. -/
def splitRunsAux (p : Char → Bool) : List Char → List Char → List (List Char)
  | [], acc => if acc.isEmpty then [] else [acc.reverse]
  | c :: cs, acc =>
    if p c then
      if acc.isEmpty then splitRunsAux p cs [] else acc.reverse :: splitRunsAux p cs []
    else
      splitRunsAux p cs (c :: acc)

/-- The maximal runs of characters of `s` not satisfying `p`, as
strings. -/
def splitRuns (p : Char → Bool) (s : String) : List String :=
  (splitRunsAux p s.data []).map String.mk

/-- The whitespace-separated tokens of `s`.  JavaScript
`s.split(/\s+/)` returns exactly these runs, plus possibly an empty
string at either end of the array when `s` starts or ends with
whitespace (and `[""]` for `s = ""`); those empty strings are removed by
the `length > 3` filter that always follows in the source, so the
composite `split(/\s+/).filter(term.length > 3)` agrees with filtering
these tokens. -/
def wsTokens (s : String) : List String :=
  splitRuns (fun c => c.isWhitespace) s

/-- The object returned by `processQuery` (QueryEngine.tsx):
`{ originalQuery, processedQuery, keyTerms, queryVector }`. -/
structure ProcessedQuery where
  originalQuery : String
  processedQuery : String
  keyTerms : List String
  queryVector : List ℚ
deriving DecidableEq, Repr

/-- `processQuery` of QueryEngine.tsx: `processedQuery` is the lowercased
and trimmed text; `keyTerms` is the lowercased (NOT trimmed) text split on
whitespace, keeping tokens of length > 3; `queryVector` is always the
empty array. -/
def processQuery (queryText : String) : ProcessedQuery :=
  { originalQuery := queryText
    processedQuery := jsTrim (jsToLower queryText)
    keyTerms := (wsTokens (jsToLower queryText)).filter (fun term => 3 < term.length)
    queryVector := [] }

/-- Remove duplicates keeping the first occurrence, with `seen` the set of
strings already emitted. -/
def dedupFirstAux : List String → List String → List String
  | [], _ => []
  | x :: xs, seen =>
    if x ∈ seen then dedupFirstAux xs seen else x :: dedupFirstAux xs (x :: seen)

/-- Follows the specification's words (§4.1), for comparison with
`processQuery`: the key terms are the tokens of the lowercased, trimmed
text split on whitespace and punctuation (any non-alphanumeric
character), restricted to length > 3, with duplicates removed preserving
first-occurrence order. -/
def specKeyTerms (queryText : String) : List String :=
  dedupFirstAux
    ((splitRuns (fun c => c.isWhitespace || !c.isAlphanum)
        (jsTrim (jsToLower queryText))).filter (fun term => 3 < term.length)) []

/-- Every token produced by `splitRunsAux` is nonempty and free of
characters satisfying `p`, given that the accumulator is. -/
theorem splitRunsAux_tokens (p : Char → Bool) (cs : List Char) :
    ∀ acc : List Char, (∀ c ∈ acc, p c = false) →
      ∀ t ∈ splitRunsAux p cs acc, t ≠ [] ∧ ∀ c ∈ t, p c = false := by
  induction cs with
  | nil =>
    intro acc hacc t ht
    simp only [splitRunsAux] at ht
    split at ht
    · exact absurd ht (List.not_mem_nil t)
    · next hne =>
      rw [List.mem_singleton] at ht
      subst ht
      refine ⟨?_, fun c hc => hacc c (List.mem_reverse.1 hc)⟩
      intro hrev
      exact hne (by simp [List.isEmpty_iff, ← List.reverse_eq_nil_iff, hrev])
  | cons c cs ih =>
    intro acc hacc t ht
    simp only [splitRunsAux] at ht
    split at ht
    · split at ht
      · exact ih [] (by simp) t ht
      · next hne =>
        rcases List.mem_cons.1 ht with rfl | ht
        · refine ⟨?_, fun d hd => hacc d (List.mem_reverse.1 hd)⟩
          intro hrev
          exact hne (by simp [List.isEmpty_iff, ← List.reverse_eq_nil_iff, hrev])
        · exact ih [] (by simp) t ht
    · next hpc =>
      refine ih (c :: acc) ?_ t ht
      intro d hd
      rcases List.mem_cons.1 hd with rfl | hd
      · exact Bool.not_eq_true _ ▸ eq_false_of_ne_true hpc
      · exact hacc d hd

/-- C2 counterexample: on the raw query "test test" the code keeps the
duplicate token, while the specification's description (split on
whitespace/punctuation, length > 3, duplicates removed) yields a single
occurrence. -/
theorem keyTerms_duplicates_kept :
    (processQuery "test test").keyTerms = ["test", "test"] ∧
    specKeyTerms "test test" = ["test"] ∧
    (["test", "test"] : List String) ≠ ["test"] := by
  refine ⟨by decide, by decide, by decide⟩

/-- C2 amended: `keyTerms` consists of the whitespace-separated tokens of
the lowercased (untrimmed) text whose length exceeds 3, preserving order
of occurrence AND multiplicity — duplicates are kept, and no punctuation
splitting happens: each kept token is simply a whitespace-free run of
length > 3, occurring in `keyTerms` exactly as often as among the
whitespace tokens. -/
theorem processQuery_keyTerms_spec (t w : String) (hw : 3 < w.length) :
    (processQuery t).keyTerms.count w = (wsTokens (jsToLower t)).count w ∧
    (processQuery t).keyTerms.Sublist (wsTokens (jsToLower t)) ∧
    ∀ u ∈ (processQuery t).keyTerms, 3 < u.length ∧ ∀ c ∈ u.data, c.isWhitespace = false := by
  refine ⟨?_, List.filter_sublist _, ?_⟩
  · exact List.count_filter (by simpa using hw)
  · intro u hu
    rw [show (processQuery t).keyTerms
        = (wsTokens (jsToLower t)).filter (fun term => 3 < term.length) from rfl,
      List.mem_filter] at hu
    obtain ⟨hmem, hlen⟩ := hu
    refine ⟨by simpa using hlen, ?_⟩
    rw [wsTokens, splitRuns] at hmem
    obtain ⟨l, hl, rfl⟩ := List.mem_map.1 hmem
    intro c hc
    exact (splitRunsAux_tokens _ _ [] (by simp) l hl).2 c hc

/-- C2 witness: the amended characterisation on the query
"alpha beta alpha". -/
theorem processQuery_keyTerms_spec_witness :
    (processQuery "alpha beta alpha").keyTerms.count "alpha" =
      (wsTokens (jsToLower "alpha beta alpha")).count "alpha" ∧
    (processQuery "alpha beta alpha").keyTerms.Sublist
      (wsTokens (jsToLower "alpha beta alpha")) ∧
    ∀ u ∈ (processQuery "alpha beta alpha").keyTerms,
      3 < u.length ∧ ∀ c ∈ u.data, c.isWhitespace = false :=
  processQuery_keyTerms_spec "alpha beta alpha" "alpha" (by decide)

/-- C5 counterexample: the query "a b" has empty `keyTerms`, yet
keyword-strategy retrieval on its processed text with `top_k = 5` returns
five mock results, not the empty sequence — `retrieveRelevantContent`
never consults the key terms. -/
theorem emptyKeyTerms_not_empty_results :
    (processQuery "a b").keyTerms = [] ∧
    retrieveRelevantContent (processQuery "a b").processedQuery RetrievalStrategy.keyword
      ⟨"", ""⟩ 5 ≠ Except.ok [] := by
  refine ⟨by decide, ?_⟩
  intro h
  rw [retrieveRelevantContent] at h
  have h5 : (mockResults (processQuery "a b").processedQuery RetrievalStrategy.keyword
      ⟨"", ""⟩ 5).length = 5 := by simp [mockResults]
  rw [Except.ok.inj h] at h5
  exact absurd h5 (by decide)

/-- C5 amended: for every query whose `keyTerms` is empty,
keyword-strategy retrieval still resolves successfully — with the full
`top_k` mock results rather than the empty sequence, since the key terms
are ignored entirely; no error is raised. -/
theorem keyword_ignores_keyTerms (t : String) (f : QueryFilters) (k : Int)
    (h : (processQuery t).keyTerms = []) :
    ∃ rs, retrieveRelevantContent (processQuery t).processedQuery RetrievalStrategy.keyword f k =
        Except.ok rs ∧ rs.length = k.toNat :=
  ⟨mockResults (processQuery t).processedQuery RetrievalStrategy.keyword f k, rfl,
    by simp [mockResults]⟩

/-- C5 witness: the amended statement on the all-short-tokens query
"a b" with `top_k = 5`. -/
theorem keyword_ignores_keyTerms_witness :
    ∃ rs, retrieveRelevantContent (processQuery "a b").processedQuery RetrievalStrategy.keyword
        ⟨"", ""⟩ 5 = Except.ok rs ∧ rs.length = (5 : Int).toNat :=
  keyword_ignores_keyTerms "a b" ⟨"", ""⟩ 5 (by decide)

/-- C7 witness: determinism at a concrete call. -/
theorem retrieve_deterministic_witness :
    retrieveRelevantContent "cardiac" RetrievalStrategy.hybrid ⟨"", ""⟩ 5 =
      retrieveRelevantContent "cardiac" RetrievalStrategy.hybrid ⟨"", ""⟩ 5 :=
  retrieve_deterministic "cardiac" "cardiac" RetrievalStrategy.hybrid RetrievalStrategy.hybrid
    ⟨"", ""⟩ ⟨"", ""⟩ 5 5 rfl rfl rfl rfl

/-! ## DataConnector.tsx -/

/-- `type QuizQuestion` of DataConnector.tsx.  `options` is a
`Record<string, string>`; `Object.entries` enumerates its key/value pairs
in insertion order, so the record is modelled as an association list. -/
structure QuizQuestion where
  id : String
  question : String
  options : List (String × String)
  correct_answer : String
  answer_details : String
  bookname : String
  chapter : Option String
  chapter_index : Option Int
  question_number : Option Int
  setorder : Option Int
  active : Bool
  created_at : String
deriving DecidableEq, Repr

/-- The metadata record of `type VectorReadyQuestion` (DataConnector.tsx). -/
structure QuestionMetadata where
  bookname : String
  chapter : Option String
  chapter_index : Option Int
  question_number : Option Int
  correct_answer : String
deriving DecidableEq, Repr

/-- `type VectorReadyQuestion` of DataConnector.tsx. -/
structure VectorReadyQuestion where
  id : String
  content : String
  metadata : QuestionMetadata
deriving DecidableEq, Repr

/-- JavaScript `Array.prototype.join("\n")`: the empty array joins to
`""`, a singleton to itself, and otherwise elements are interleaved with
newlines. -/
def joinLines : List String → String
  | [] => ""
  | [s] => s
  | s :: rest => s ++ "\n" ++ joinLines rest

/-- `transformQuestionData` of DataConnector.tsx: `optionsText` renders
each option entry as `key: value` joined by newlines; `content` is the
template literal combining question, options, correct answer and answer
details, then `.trim()`ed; the metadata fields are copied through. -/
def transformQuestionData (question : QuizQuestion) : VectorReadyQuestion :=
  { id := question.id
    content := jsTrim
      ("\n      Question: " ++ question.question
        ++ "\n      Options:\n      "
        ++ joinLines (question.options.map (fun kv => kv.1 ++ ": " ++ kv.2))
        ++ "\n      Correct Answer: " ++ question.correct_answer
        ++ "\n      Answer Details: " ++ question.answer_details
        ++ "\n    ")
    metadata :=
      { bookname := question.bookname
        chapter := question.chapter
        chapter_index := question.chapter_index
        question_number := question.question_number
        correct_answer := question.correct_answer } }

/-- `sub` occurs as a contiguous substring of `s`. -/
def containsStr (s sub : String) : Prop :=
  sub.data <:+: s.data

instance containsStrDecidable (s sub : String) : Decidable (containsStr s sub) :=
  List.decidableInfix sub.data s.data

/-- The last character of `s` exists and is not whitespace. -/
def endsNonWs (s : String) : Bool :=
  match s.data.reverse with
  | [] => false
  | c :: _ => !c.isWhitespace

/-- The character list of a constructed string. -/
theorem data_mk (l : List Char) : (String.mk l).data = l := rfl

/-- An infix of the right part of an append is an infix of the whole. -/
theorem infix_extend_left (l₁ : List Char) {mid l₂ : List Char} (h : mid <:+: l₂) :
    mid <:+: l₁ ++ l₂ := by
  obtain ⟨s, t, rfl⟩ := h
  exact ⟨l₁ ++ s, t, by simp [List.append_assoc]⟩

/-- A list is an infix of itself followed by anything. -/
theorem infix_head (mid rest : List Char) : mid <:+: mid ++ rest :=
  ⟨[], rest, rfl⟩

/-- Every member of a joined list occurs in the joined string. -/
theorem mem_joinLines_substr (l : List String) :
    ∀ s ∈ l, s.data <:+: (joinLines l).data := by
  induction l with
  | nil => intro s hs; cases hs
  | cons x xs ih =>
    intro s hs
    cases xs with
    | nil =>
      rw [List.mem_singleton] at hs
      subst hs
      exact List.infix_refl _
    | cons y ys =>
      rcases List.mem_cons.1 hs with rfl | hs'
      · exact ⟨[], ("\n").data ++ (joinLines (y :: ys)).data, by
          simp [joinLines, List.append_assoc]⟩
      · exact (ih s hs').trans ⟨(x ++ "\n").data, [], by simp [joinLines, List.append_assoc]⟩

/-- Dropping leading whitespace passes over the concrete
`"\n      Question: "` prefix of the content template. -/
theorem dropWhile_question_start (r : List Char) :
    ((("\n      Question: ").data ++ r).dropWhile Char.isWhitespace)
      = ("Question: ").data ++ r := by
  have hA : (("\n      Question: ").data.dropWhile Char.isWhitespace)
      = ("Question: ").data := by decide
  have hAe : ((("\n      Question: ").data.dropWhile Char.isWhitespace)).isEmpty = false := by
    decide
  rw [List.dropWhile_append, hAe, hA]
  simp

/-- Trimming the right end of the content template removes the trailing
`"\n    "` and stops at the last character of `answer_details` when that
character is not whitespace. -/
theorem trim_right_answer_details (q : QuizQuestion) (h : endsNonWs q.answer_details = true)
    (m : List Char) :
    (((("Question: ").data ++ (m ++ (q.answer_details.data ++ ("\n    ").data))).reverse.dropWhile
        Char.isWhitespace).reverse)
      = ("Question: ").data ++ (m ++ q.answer_details.data) := by
  obtain ⟨c, cs, hrev, hc⟩ : ∃ c cs, q.answer_details.data.reverse = c :: cs ∧
      c.isWhitespace = false := by
    cases hm : q.answer_details.data.reverse with
    | nil => simp [endsNonWs, hm] at h
    | cons c cs => exact ⟨c, cs, rfl, by simpa [endsNonWs, hm] using h⟩
  have hads : q.answer_details.data = cs.reverse ++ [c] := by
    have := congrArg List.reverse hrev
    simpa using this
  have hE : ∀ a ∈ (("\n    ").data.reverse), a.isWhitespace := by decide
  rw [List.reverse_append, List.reverse_append, List.reverse_append,
    List.append_assoc, List.append_assoc,
    List.dropWhile_append_of_pos hE, hrev, List.cons_append,
    List.dropWhile_cons_of_neg (by simp [hc])]
  rw [hads]
  simp [List.reverse_append, List.append_assoc]

/-- The normal form of the trimmed content string, valid whenever
`answer_details` ends in a non-whitespace character. -/
theorem transform_content_data (q : QuizQuestion) (h : endsNonWs q.answer_details = true) :
    (transformQuestionData q).content.data =
      ("Question: ").data
        ++ (q.question.data
        ++ (("\n      Options:\n      ").data
        ++ ((joinLines (q.options.map (fun kv => kv.1 ++ ": " ++ kv.2))).data
        ++ (("\n      Correct Answer: ").data
        ++ (q.correct_answer.data
        ++ (("\n      Answer Details: ").data
        ++ q.answer_details.data)))))) := by
  show (jsTrim _).data = _
  rw [jsTrim, data_mk]
  rw [show ("\n      Question: " ++ q.question
      ++ "\n      Options:\n      "
      ++ joinLines (q.options.map (fun kv => kv.1 ++ ": " ++ kv.2))
      ++ "\n      Correct Answer: " ++ q.correct_answer
      ++ "\n      Answer Details: " ++ q.answer_details
      ++ "\n    ").data
    = ("\n      Question: ").data
      ++ (q.question.data
      ++ (("\n      Options:\n      ").data
      ++ ((joinLines (q.options.map (fun kv => kv.1 ++ ": " ++ kv.2))).data
      ++ (("\n      Correct Answer: ").data
      ++ (q.correct_answer.data
      ++ (("\n      Answer Details: ").data
      ++ (q.answer_details.data
      ++ ("\n    ").data))))))) from by simp [List.append_assoc]]
  rw [dropWhile_question_start]
  have := trim_right_answer_details q h
    (q.question.data
      ++ (("\n      Options:\n      ").data
      ++ ((joinLines (q.options.map (fun kv => kv.1 ++ ": " ++ kv.2))).data
      ++ (("\n      Correct Answer: ").data
      ++ (q.correct_answer.data
      ++ ("\n      Answer Details: ").data)))))
  rw [show (q.question.data
      ++ (("\n      Options:\n      ").data
      ++ ((joinLines (q.options.map (fun kv => kv.1 ++ ": " ++ kv.2))).data
      ++ (("\n      Correct Answer: ").data
      ++ (q.correct_answer.data
      ++ (("\n      Answer Details: ").data
      ++ (q.answer_details.data
      ++ ("\n    ").data)))))))
    = ((q.question.data
      ++ (("\n      Options:\n      ").data
      ++ ((joinLines (q.options.map (fun kv => kv.1 ++ ": " ++ kv.2))).data
      ++ (("\n      Correct Answer: ").data
      ++ (q.correct_answer.data
      ++ ("\n      Answer Details: ").data)))))
      ++ (q.answer_details.data ++ ("\n    ").data)) from by simp [List.append_assoc]]
  rw [this]
  simp [List.append_assoc]

/-- A QuizQuestion whose `answer_details` ends in a space: the source
template's `.trim()` swallows that trailing space. -/
def qTrailingWs : QuizQuestion :=
  { id := "q1", question := "q", options := [], correct_answer := "c",
    answer_details := "x ", bookname := "b", chapter := none, chapter_index := none,
    question_number := none, setorder := none, active := true, created_at := "" }

set_option maxRecDepth 40000 in
/-- C9 counterexample: for the question `qTrailingWs` (whose
`answer_details` is `"x "`), the transformed content does not contain
`answer_details` — the template's trailing `.trim()` removes the final
space, so only `"x"` survives. -/
theorem transform_drops_trailing_space :
    ¬ containsStr (transformQuestionData qTrailingWs).content qTrailingWs.answer_details := by
  decide

/-- C9 amended: provided `answer_details` ends in a non-whitespace
character (so the final `.trim()` cannot eat into it),
`transformQuestionData` copies `id` and all five metadata fields through
unchanged, and its content contains the question, every option rendered
as `key: value`, the correct answer, and the answer details. -/
theorem transformQuestionData_spec (q : QuizQuestion) (h : endsNonWs q.answer_details = true) :
    (transformQuestionData q).id = q.id ∧
    (transformQuestionData q).metadata.bookname = q.bookname ∧
    (transformQuestionData q).metadata.chapter = q.chapter ∧
    (transformQuestionData q).metadata.chapter_index = q.chapter_index ∧
    (transformQuestionData q).metadata.question_number = q.question_number ∧
    (transformQuestionData q).metadata.correct_answer = q.correct_answer ∧
    containsStr (transformQuestionData q).content q.question ∧
    (∀ kv ∈ q.options,
      containsStr (transformQuestionData q).content (kv.1 ++ ": " ++ kv.2)) ∧
    containsStr (transformQuestionData q).content q.correct_answer ∧
    containsStr (transformQuestionData q).content q.answer_details := by
  refine ⟨rfl, rfl, rfl, rfl, rfl, rfl, ?_, ?_, ?_, ?_⟩
  · rw [containsStr, transform_content_data q h]
    exact infix_extend_left _ (infix_head _ _)
  · intro kv hkv
    have h1 : (kv.1 ++ ": " ++ kv.2).data <:+:
        (joinLines (q.options.map (fun p => p.1 ++ ": " ++ p.2))).data :=
      mem_joinLines_substr _ _ (List.mem_map_of_mem _ hkv)
    rw [containsStr, transform_content_data q h]
    exact h1.trans
      (infix_extend_left _ (infix_extend_left _ (infix_extend_left _ (infix_head _ _))))
  · rw [containsStr, transform_content_data q h]
    exact infix_extend_left _ (infix_extend_left _ (infix_extend_left _
      (infix_extend_left _ (infix_extend_left _ (infix_head _ _)))))
  · rw [containsStr, transform_content_data q h]
    exact infix_extend_left _ (infix_extend_left _ (infix_extend_left _
      (infix_extend_left _ (infix_extend_left _ (infix_extend_left _
        (infix_extend_left _ (List.infix_refl _)))))))

/-- A concrete quiz question for the C9 witness. -/
def qWitness : QuizQuestion :=
  { id := "q42", question := "Which chamber pumps blood into the aorta?",
    options := [("A", "left ventricle"), ("B", "right atrium")],
    correct_answer := "A", answer_details := "The left ventricle feeds the aorta.",
    bookname := "Cardiology", chapter := some "Anatomy", chapter_index := some 2,
    question_number := some 7, setorder := none, active := true, created_at := "2024-01-01" }

/-- C9 witness: the amended statement at the concrete question
`qWitness`. -/
theorem transformQuestionData_spec_witness :
    (transformQuestionData qWitness).id = qWitness.id ∧
    (transformQuestionData qWitness).metadata.bookname = qWitness.bookname ∧
    (transformQuestionData qWitness).metadata.chapter = qWitness.chapter ∧
    (transformQuestionData qWitness).metadata.chapter_index = qWitness.chapter_index ∧
    (transformQuestionData qWitness).metadata.question_number = qWitness.question_number ∧
    (transformQuestionData qWitness).metadata.correct_answer = qWitness.correct_answer ∧
    containsStr (transformQuestionData qWitness).content qWitness.question ∧
    (∀ kv ∈ qWitness.options,
      containsStr (transformQuestionData qWitness).content (kv.1 ++ ": " ++ kv.2)) ∧
    containsStr (transformQuestionData qWitness).content qWitness.correct_answer ∧
    containsStr (transformQuestionData qWitness).content qWitness.answer_details :=
  transformQuestionData_spec qWitness (by decide)

/-! ## EnvironmentSetup.tsx -/

/-- `type ConfigStatus` of EnvironmentSetup.tsx. -/
inductive ConfigStatus where
  | unconfigured
  | configuring
  | testing
  | valid
  | invalid
deriving DecidableEq, Repr

/-- `type ServiceConfig` of EnvironmentSetup.tsx; `endpoint` is an
optional field. -/
structure ServiceConfig where
  name : String
  status : ConfigStatus
  key : String
  endpoint : Option String
  description : String
deriving DecidableEq, Repr

/-- A `Partial<ServiceConfig>` update object: each field is present
(`some`) or absent (`none`). -/
structure ConfigUpdate where
  name : Option String
  status : Option ConfigStatus
  key : Option String
  endpoint : Option (Option String)
  description : Option String
deriving DecidableEq, Repr

/-- The object spread `{ ...config, ...updates }`: fields present in the
update win, all others are taken from the old config. -/
def mergeConfig (c : ServiceConfig) (u : ConfigUpdate) : ServiceConfig :=
  { name := u.name.getD c.name
    status := u.status.getD c.status
    key := u.key.getD c.key
    endpoint := u.endpoint.getD c.endpoint
    description := u.description.getD c.description }

/-- `updateConfig` of EnvironmentSetup.tsx: copy the array and replace the
entry at `index` by its merge with the update.  (The React caller always
passes an in-bounds index; an out-of-bounds index leaves the modelled list
unchanged, and in JavaScript too it would leave every existing entry
unchanged.) -/
def updateConfig (configs : List ServiceConfig) (index : Nat) (u : ConfigUpdate) :
    List ServiceConfig :=
  match configs[index]? with
  | some c => configs.set index (mergeConfig c u)
  | none => configs

/-- C10: `updateConfig` leaves every entry at an index other than the
given one unchanged, and within the updated entry every field not named
in the update keeps its old value. -/
theorem updateConfig_frame (configs : List ServiceConfig) (index j : Nat) (u : ConfigUpdate)
    (hj : j ≠ index) :
    (updateConfig configs index u)[j]? = configs[j]? ∧
    (u.name = none →
      ((updateConfig configs index u)[index]?).map ServiceConfig.name
        = (configs[index]?).map ServiceConfig.name) ∧
    (u.status = none →
      ((updateConfig configs index u)[index]?).map ServiceConfig.status
        = (configs[index]?).map ServiceConfig.status) ∧
    (u.key = none →
      ((updateConfig configs index u)[index]?).map ServiceConfig.key
        = (configs[index]?).map ServiceConfig.key) ∧
    (u.endpoint = none →
      ((updateConfig configs index u)[index]?).map ServiceConfig.endpoint
        = (configs[index]?).map ServiceConfig.endpoint) ∧
    (u.description = none →
      ((updateConfig configs index u)[index]?).map ServiceConfig.description
        = (configs[index]?).map ServiceConfig.description) := by
  cases hidx : configs[index]? with
  | none => simp [updateConfig, hidx]
  | some c =>
    have hlt : index < configs.length := by
      by_contra hge
      rw [List.getElem?_eq_none (Nat.le_of_not_lt hge)] at hidx
      exact Option.noConfusion hidx
    have hset : (updateConfig configs index u)[index]? = some (mergeConfig c u) := by
      rw [updateConfig, hidx]
      simp [List.getElem?_set_self (by simpa using hlt)]
    have hne : (updateConfig configs index u)[j]? = configs[j]? := by
      rw [updateConfig, hidx]
      exact List.getElem?_set_ne (fun he => hj he.symm)
    refine ⟨hne, ?_, ?_, ?_, ?_, ?_⟩ <;>
      intro hu <;> rw [hset] <;> simp [mergeConfig, hu]

/-- C10 witness: the frame property at the source's initial two-element
configuration list, updating entry 0's key and status (as the API-key
input handler does) and observing entry 1 and the unnamed fields. -/
theorem updateConfig_frame_witness :
    (updateConfig
      [{ name := "openrouter", status := ConfigStatus.unconfigured, key := "",
         endpoint := some "https://openrouter.ai/api/v1",
         description := "OpenRouter API for accessing Deepseek-r1 model" },
       { name := "supabase", status := ConfigStatus.unconfigured, key := "",
         endpoint := some "",
         description := "Supabase for database and vector storage" }] 0
      { name := none, status := some ConfigStatus.configuring, key := some "sk-abc",
        endpoint := none, description := none })[1]?
      = [{ name := "openrouter", status := ConfigStatus.unconfigured, key := "",
           endpoint := some "https://openrouter.ai/api/v1",
           description := "OpenRouter API for accessing Deepseek-r1 model" },
         { name := "supabase", status := ConfigStatus.unconfigured, key := "",
           endpoint := some "",
           description := "Supabase for database and vector storage" }][1]? ∧
    ((none : Option String) = none →
      ((updateConfig
        [{ name := "openrouter", status := ConfigStatus.unconfigured, key := "",
           endpoint := some "https://openrouter.ai/api/v1",
           description := "OpenRouter API for accessing Deepseek-r1 model" },
         { name := "supabase", status := ConfigStatus.unconfigured, key := "",
           endpoint := some "",
           description := "Supabase for database and vector storage" }] 0
        { name := none, status := some ConfigStatus.configuring, key := some "sk-abc",
          endpoint := none, description := none })[0]?).map ServiceConfig.name
        = ([{ name := "openrouter", status := ConfigStatus.unconfigured, key := "",
              endpoint := some "https://openrouter.ai/api/v1",
              description := "OpenRouter API for accessing Deepseek-r1 model" },
            { name := "supabase", status := ConfigStatus.unconfigured, key := "",
              endpoint := some "",
              description := "Supabase for database and vector storage" }][0]?).map
            ServiceConfig.name) ∧
    ((some ConfigStatus.configuring : Option ConfigStatus) = none →
      ((updateConfig
        [{ name := "openrouter", status := ConfigStatus.unconfigured, key := "",
           endpoint := some "https://openrouter.ai/api/v1",
           description := "OpenRouter API for accessing Deepseek-r1 model" },
         { name := "supabase", status := ConfigStatus.unconfigured, key := "",
           endpoint := some "",
           description := "Supabase for database and vector storage" }] 0
        { name := none, status := some ConfigStatus.configuring, key := some "sk-abc",
          endpoint := none, description := none })[0]?).map ServiceConfig.status
        = ([{ name := "openrouter", status := ConfigStatus.unconfigured, key := "",
              endpoint := some "https://openrouter.ai/api/v1",
              description := "OpenRouter API for accessing Deepseek-r1 model" },
            { name := "supabase", status := ConfigStatus.unconfigured, key := "",
              endpoint := some "",
              description := "Supabase for database and vector storage" }][0]?).map
            ServiceConfig.status) ∧
    ((some "sk-abc" : Option String) = none →
      ((updateConfig
        [{ name := "openrouter", status := ConfigStatus.unconfigured, key := "",
           endpoint := some "https://openrouter.ai/api/v1",
           description := "OpenRouter API for accessing Deepseek-r1 model" },
         { name := "supabase", status := ConfigStatus.unconfigured, key := "",
           endpoint := some "",
           description := "Supabase for database and vector storage" }] 0
        { name := none, status := some ConfigStatus.configuring, key := some "sk-abc",
          endpoint := none, description := none })[0]?).map ServiceConfig.key
        = ([{ name := "openrouter", status := ConfigStatus.unconfigured, key := "",
              endpoint := some "https://openrouter.ai/api/v1",
              description := "OpenRouter API for accessing Deepseek-r1 model" },
            { name := "supabase", status := ConfigStatus.unconfigured, key := "",
              endpoint := some "",
              description := "Supabase for database and vector storage" }][0]?).map
            ServiceConfig.key) ∧
    ((none : Option (Option String)) = none →
      ((updateConfig
        [{ name := "openrouter", status := ConfigStatus.unconfigured, key := "",
           endpoint := some "https://openrouter.ai/api/v1",
           description := "OpenRouter API for accessing Deepseek-r1 model" },
         { name := "supabase", status := ConfigStatus.unconfigured, key := "",
           endpoint := some "",
           description := "Supabase for database and vector storage" }] 0
        { name := none, status := some ConfigStatus.configuring, key := some "sk-abc",
          endpoint := none, description := none })[0]?).map ServiceConfig.endpoint
        = ([{ name := "openrouter", status := ConfigStatus.unconfigured, key := "",
              endpoint := some "https://openrouter.ai/api/v1",
              description := "OpenRouter API for accessing Deepseek-r1 model" },
            { name := "supabase", status := ConfigStatus.unconfigured, key := "",
              endpoint := some "",
              description := "Supabase for database and vector storage" }][0]?).map
            ServiceConfig.endpoint) ∧
    ((none : Option String) = none →
      ((updateConfig
        [{ name := "openrouter", status := ConfigStatus.unconfigured, key := "",
           endpoint := some "https://openrouter.ai/api/v1",
           description := "OpenRouter API for accessing Deepseek-r1 model" },
         { name := "supabase", status := ConfigStatus.unconfigured, key := "",
           endpoint := some "",
           description := "Supabase for database and vector storage" }] 0
        { name := none, status := some ConfigStatus.configuring, key := some "sk-abc",
          endpoint := none, description := none })[0]?).map ServiceConfig.description
        = ([{ name := "openrouter", status := ConfigStatus.unconfigured, key := "",
              endpoint := some "https://openrouter.ai/api/v1",
              description := "OpenRouter API for accessing Deepseek-r1 model" },
            { name := "supabase", status := ConfigStatus.unconfigured, key := "",
              endpoint := some "",
              description := "Supabase for database and vector storage" }][0]?).map
            ServiceConfig.description) :=
  updateConfig_frame _ 0 1 _ (by decide)

end Rag
